import Mathlib

/-!
Verification of the BigQuery query tool pipeline
(`src/tools/bigquery_query.py`, class `BigQueryQueryTool`).

The Python code is a linear validate → estimate → gate → execute →
normalize → log pipeline.  We embed it shallowly: the outcomes of the
external collaborators (credential parsing, the BigQuery dry run, the
execute call, the audit-file append) are supplied by an `Env` record,
and `run` is the pure translation of `_invoke`, returning the sequence
of emitted messages, the audit records handed to `_log_query`, and the
number of remote calls of each kind.

Python floats are modelled as rationals (`ℚ`); the only arithmetic the
pipeline performs on them is one division by the constant
`BYTES_PER_DOLLAR` and comparisons against `1.0`, which agree with real
arithmetic at every integer byte count below 2^53.
-/

/-- A Python value as it appears in a BigQuery result row.  Leaves that
`json.dumps` accepts (None, bool, int, float, str) are separated from
leaves it rejects with `TypeError` (dates, raw bytes); lists and dicts
are serializable exactly when all their members are. -/
inductive Value where
  | vNull : Value
  | vBool : Bool → Value
  | vInt : Int → Value
  | vFloat : ℚ → Value
  | vStr : String → Value
  | vDate : String → Value
  | vBytes : String → Value
  | vList : List Value → Value
  | vDict : List (String × Value) → Value
deriving Repr

mutual

/-- Python `str(value)` (the text form used by the coercion in `_invoke`,
line 167: `row_dict[key] = str(value)`). -/
def pyStr : Value → String
  | .vNull => "None"
  | .vBool true => "True"
  | .vBool false => "False"
  | .vInt n => toString n
  | .vFloat q => toString q
  | .vStr s => s
  | .vDate s => s
  | .vBytes s => s
  | .vList xs => "[" ++ pyStrList xs ++ "]"
  | .vDict kvs => "\x7b" ++ pyStrKvs kvs ++ "\x7d"

def pyStrList : List Value → String
  | [] => ""
  | [x] => pyStr x
  | x :: y :: xs => pyStr x ++ ", " ++ pyStrList (y :: xs)

def pyStrKvs : List (String × Value) → String
  | [] => ""
  | [kv] => kv.1 ++ ": " ++ pyStr kv.2
  | kv :: kw :: xs => kv.1 ++ ": " ++ pyStr kv.2 ++ ", " ++ pyStrKvs (kw :: xs)

end

mutual

/-- `_is_json_serializable` (`bigquery_query.py` lines 221-227): whether
`json.dumps(value)` succeeds.  `json.dumps` accepts None, bools, ints,
floats and strings, rejects dates and bytes with `TypeError`, and
accepts a list or a string-keyed dict exactly when it accepts every
member. -/
def isJsonSerializable : Value → Bool
  | .vNull => true
  | .vBool _ => true
  | .vInt _ => true
  | .vFloat _ => true
  | .vStr _ => true
  | .vDate _ => false
  | .vBytes _ => false
  | .vList xs => serializableList xs
  | .vDict kvs => serializableKvs kvs

def serializableList : List Value → Bool
  | [] => true
  | x :: xs => isJsonSerializable x && serializableList xs

def serializableKvs : List (String × Value) → Bool
  | [] => true
  | kv :: xs => isJsonSerializable kv.2 && serializableKvs xs

end

/-- A row-mapping: ordered field-name/value pairs (`dict(row.items())`). -/
abbrev Row := List (String × Value)

/-- The per-field coercion of `_invoke` lines 165-167: a value that is
not JSON-serializable is replaced by its `str(...)` text form. -/
def coerceValue (v : Value) : Value :=
  if isJsonSerializable v then v else .vStr (pyStr v)

/-- The per-row normalization loop of `_invoke` lines 159-169 applied to
one row: every non-serializable field value is replaced by its text
form, keys and order unchanged. -/
def normalizeRow (row : Row) : Row :=
  row.map (fun kv => (kv.1, coerceValue kv.2))

/-! ## Constants (`bigquery_query.py` lines 17-20) -/

/-- `MAX_BYTES_PROCESSED = 5 * 1024 * 1024 * 1024` (5 GB hard ceiling). -/
def MAX_BYTES_PROCESSED : ℕ := 5 * 1024 * 1024 * 1024

/-- `BYTES_PER_DOLLAR = 5 * 1024 * 1024 * 1024` (about one dollar per 5 GB). -/
def BYTES_PER_DOLLAR : ℕ := 5 * 1024 * 1024 * 1024

/-- `COST_THRESHOLD_WARNING = 1.0`. -/
def COST_THRESHOLD_WARNING : ℚ := 1

/-- Result of `_estimate_query_cost` (lines 23-46): the dictionary built
from the dry-run job.  Booleans are stored, not recomputed. -/
structure CostEstimation where
  bytes_processed : ℕ
  estimated_cost_usd : ℚ
  exceeds_limit : Bool
  estimated_cost_warning : Bool
deriving Repr, DecidableEq

/-- `_estimate_query_cost`, given the dry-run job's
`total_bytes_processed` (which the client may report as `None`):
`bytes_processed = query_job.total_bytes_processed or 0`;
`estimated_cost = bytes_processed / BYTES_PER_DOLLAR if bytes_processed else 0`. -/
def estimateQueryCost (total_bytes_processed : Option ℕ) : CostEstimation :=
  let bytes_processed := total_bytes_processed.getD 0
  let estimated_cost : ℚ :=
    if bytes_processed = 0 then 0 else (bytes_processed : ℚ) / (BYTES_PER_DOLLAR : ℚ)
  { bytes_processed := bytes_processed
    estimated_cost_usd := estimated_cost
    exceeds_limit := decide (bytes_processed > MAX_BYTES_PROCESSED)
    estimated_cost_warning := decide (estimated_cost > COST_THRESHOLD_WARNING) }

/-- The `empty_estimation` dictionary built in both `except` handlers
(lines 196-201 and 211-216): all fields zero / false. -/
def zeroEstimation : CostEstimation :=
  { bytes_processed := 0, estimated_cost_usd := 0
    exceeds_limit := false, estimated_cost_warning := false }

/-! ## Audit log (`_log_query`, lines 48-80) -/

/-- One audit record, the `log_data` dictionary of `_log_query`:
`error` is attached only when the `error` argument is truthy
(a non-empty string). -/
structure AuditRecord where
  timestamp : String
  query : String
  bytes_processed : ℕ
  estimated_cost_usd : ℚ
  success : Bool
  error : Option String
deriving Repr, DecidableEq

/-- `_log_query` as record construction: the record appended (or
attempted) to `logs/query_logs.jsonl`. -/
def logQuery (now query : String) (estimation : CostEstimation) (success : Bool)
    (error : Option String) : AuditRecord :=
  { timestamp := now
    query := query
    bytes_processed := estimation.bytes_processed
    estimated_cost_usd := estimation.estimated_cost_usd
    success := success
    error := match error with
      | some e => if e.isEmpty then none else some e
      | none => none }

/-! ## Remote collaborators and environment -/

/-- Errors the remote service can raise: `BadRequest` (the
syntax-class error caught at line 191) versus any other `Exception`
(caught at line 206). -/
inductive RemoteError where
  | badRequest : String → RemoteError
  | execError : String → RemoteError
deriving Repr, DecidableEq

/-- Result of a successful `client.query(query)` + `result(max_results)`
round trip: the rows, the result schema, the job id, the execute job's
`total_bytes_processed` (may be `None` on a real job) and `total_rows`. -/
structure ExecResult where
  rows : List Row
  schema : List String
  job_id : String
  total_bytes_processed : Option ℕ
  total_rows : ℕ

/-- One invocation's view of the outside world: outcome of
`json.loads(service_account_key_json)` (line 108), of building
credentials and the client (lines 111-119), of the dry run (line 123 via
`_estimate_query_cost`), of the execute call (lines 153-156), and
whether the audit-file append inside `_log_query` succeeds. -/
structure Env where
  now : String
  keyParse : Except String Unit
  clientSetup : Except String Unit
  dryRun : Except RemoteError (Option ℕ)
  exec : Except RemoteError ExecResult
  auditWriteOk : Bool

/-- The tool parameters dictionary: `query` and `max_results` as read by
`tool_parameters.get` (lines 95-96). -/
structure ToolParameters where
  query : Option String
  max_results : Option ℕ

/-! ## Output messages and the pipeline -/

/-- The `metadata` dictionary of the success response (lines 172-178).
`bytes_processed` is taken from the execute job without coercion, so it
stays an `Option`; `estimated_cost_usd` is copied from the dry-run
estimation. -/
structure Metadata where
  total_rows : ℕ
  schema : List String
  query_job_id : String
  bytes_processed : Option ℕ
  estimated_cost_usd : ℚ
deriving DecidableEq

/-- The success `response` object (lines 180-183). -/
structure Response where
  results : List Row
  metadata : Metadata

/-- One `ToolInvokeMessage`: `create_text_message` or
`create_json_message`. -/
inductive Message where
  | text : String → Message
  | json : Response → Message

/-- Observable outcome of one `_invoke` call: the yielded messages in
order, the audit records handed to `_log_query` (append attempted), the
records actually persisted (append succeeded), and how many dry-run /
execute remote calls were made. -/
structure RunResult where
  messages : List Message
  audits : List AuditRecord
  auditsWritten : List AuditRecord
  dryRunCalls : ℕ
  execCalls : ℕ

/-- Python truthiness of the `query` parameter (`if not query`, line 98):
absent or the empty string. -/
def queryFalsy : Option String → Bool
  | none => true
  | some s => s.isEmpty

/-- Prefix of the `BadRequest` handler's message (line 192). -/
def badRequestMsgMarker : String := "BigQuery syntax error: "

/-- Prefix of the generic `Exception` handler's message (line 207). -/
def genericErrorMarker : String := "Error executing query: "

/-- Message text produced by the two `except` handlers for a remote
error, from `str(e)`. -/
def remoteErrorText : RemoteError → String
  | .badRequest d => badRequestMsgMarker ++ d
  | .execError d => genericErrorMarker ++ d

/-- The over-limit error message (lines 133-137). -/
def exceedsLimitText (bytes : ℕ) : String :=
  "Query would process " ++ toString bytes ++
  " bytes, which exceeds the maximum limit of " ++ toString MAX_BYTES_PROCESSED ++
  " bytes (5 GB). Please refine your query to process less data."

/-- Python `%.2f` formatting, modelled by exact rational rounding to
cents (the pipeline never branches on this text). -/
def fmt2 (q : ℚ) : String :=
  let cents : Int := round (q * 100)
  let frac := (cents % 100).natAbs
  toString (cents / 100) ++ "." ++ (if frac < 10 then "0" else "") ++ toString frac

/-- The cost warning message (lines 144-148). -/
def costWarningText (est : CostEstimation) : String :=
  "⚠️ This query is estimated to process " ++ toString est.bytes_processed ++
  " bytes (~$" ++ fmt2 est.estimated_cost_usd ++
  "), which is relatively expensive. Consider refining your query to process less data."

/-- Packs a branch outcome; persisted records depend on whether the
audit-file append succeeds, but nothing else does (`_log_query` catches
its own write failure, lines 72-80). -/
def mkResult (env : Env) (msgs : List Message) (audits : List AuditRecord)
    (dryRunCalls execCalls : ℕ) : RunResult :=
  { messages := msgs
    audits := audits
    auditsWritten := if env.auditWriteOk then audits else []
    dryRunCalls := dryRunCalls
    execCalls := execCalls }

/-- Shallow embedding of `_invoke` (lines 82-219).  Each branch mirrors
one control path of the Python generator; messages already yielded
before an exception (the cost warning) stay in the output, and the two
`except` handlers log with `zeroEstimation` and yield one text message.
`max_results` only shapes `env.exec`'s rows, so it does not appear
explicitly below. -/
def run (env : Env) (params : ToolParameters) : RunResult :=
  if queryFalsy params.query then
    mkResult env [.text "Error: No SQL query provided"] [] 0 0
  else
    let query := params.query.getD ""
    match env.keyParse with
    | .error e =>
      let msg := genericErrorMarker ++ e
      mkResult env [.text msg] [logQuery env.now query zeroEstimation false (some msg)] 0 0
    | .ok _ =>
      match env.clientSetup with
      | .error e =>
        let msg := genericErrorMarker ++ e
        mkResult env [.text msg] [logQuery env.now query zeroEstimation false (some msg)] 0 0
      | .ok _ =>
        match env.dryRun with
        | .error re =>
          let msg := remoteErrorText re
          mkResult env [.text msg] [logQuery env.now query zeroEstimation false (some msg)] 1 0
        | .ok tbp =>
          let est := estimateQueryCost tbp
          if est.exceeds_limit then
            let msg := exceedsLimitText est.bytes_processed
            mkResult env [.text msg] [logQuery env.now query est false (some msg)] 1 0
          else
            let warnMsgs : List Message :=
              if est.estimated_cost_warning then [.text (costWarningText est)] else []
            match env.exec with
            | .error re =>
              let msg := remoteErrorText re
              mkResult env (warnMsgs ++ [.text msg])
                [logQuery env.now query zeroEstimation false (some msg)] 1 1
            | .ok res =>
              let md : Metadata :=
                { total_rows := res.total_rows
                  schema := res.schema
                  query_job_id := res.job_id
                  bytes_processed := res.total_bytes_processed
                  estimated_cost_usd := est.estimated_cost_usd }
              mkResult env
                (warnMsgs ++ [.json { results := res.rows.map normalizeRow, metadata := md }])
                [logQuery env.now query est true none] 1 1

/-- Metadata of the final structured message, when the run ends with
one. -/
def finalMetadata (r : RunResult) : Option Metadata :=
  match r.messages.getLast? with
  | some (.json resp) => some resp.metadata
  | _ => none

/-- Contiguous-substring containment on strings. -/
def containsText (s t : String) : Prop := ∃ a b : String, s = a ++ (t ++ b)

/-! ## Concrete inputs used by witnesses and counterexamples -/

/-- A tool-parameters dictionary with a non-empty query. -/
def pSelect : ToolParameters := { query := some "SELECT 1", max_results := none }

/-- A tool-parameters dictionary whose query is the empty string. -/
def pEmptyQuery : ToolParameters := { query := some "", max_results := none }

/-- A small successful execute result. -/
def execResA : ExecResult :=
  { rows := [], schema := [], job_id := "job-a", total_bytes_processed := some 0
    total_rows := 0 }

/-- An execute result whose job reports 5 GiB scanned. -/
def execResBig : ExecResult :=
  { rows := [], schema := ["n"], job_id := "job-b"
    total_bytes_processed := some BYTES_PER_DOLLAR, total_rows := 0 }

/-- An execute result whose job reports `total_bytes_processed = None`. -/
def execResNone : ExecResult :=
  { rows := [], schema := ["n"], job_id := "job-c", total_bytes_processed := none
    total_rows := 0 }

/-- Environment where the stored service-account key is not valid JSON
(`json.loads` raises). -/
def envKeyBad : Env :=
  { now := "2025-01-01T00:00:00"
    keyParse := .error "Expecting value: line 1 column 1 (char 0)"
    clientSetup := .ok (), dryRun := .ok (some 0), exec := .ok execResA
    auditWriteOk := true }

/-- Environment whose dry run reports 0 bytes but whose execute job
reports 5 GiB. -/
def envDry0ExecBig : Env :=
  { now := "2025-01-01T00:00:01", keyParse := .ok (), clientSetup := .ok ()
    dryRun := .ok (some 0), exec := .ok execResBig, auditWriteOk := true }

/-- Environment whose dry run reports 6 GiB (over the 5 GiB ceiling). -/
def envOverLimit : Env :=
  { now := "2025-01-01T00:00:02", keyParse := .ok (), clientSetup := .ok ()
    dryRun := .ok (some 6442450944), exec := .ok execResA, auditWriteOk := true }

/-- Environment whose execute call raises `BadRequest` after a clean
1000-byte dry run. -/
def envBadRequest : Env :=
  { now := "2025-01-01T00:00:03", keyParse := .ok (), clientSetup := .ok ()
    dryRun := .ok (some 1000)
    exec := .error (.badRequest "Syntax error: Unexpected keyword FORM at [1:10]")
    auditWriteOk := true }

/-- Environment whose execute call raises a generic exception after a
2 GiB dry run. -/
def envExecFail : Env :=
  { now := "2025-01-01T00:00:04", keyParse := .ok (), clientSetup := .ok ()
    dryRun := .ok (some 2147483648), exec := .error (.execError "quota exceeded")
    auditWriteOk := true }

/-- Environment whose dry run reports `total_bytes_processed = None` and
whose execute job also reports `None`. -/
def envDryNone : Env :=
  { now := "2025-01-01T00:00:05", keyParse := .ok (), clientSetup := .ok ()
    dryRun := .ok none, exec := .ok execResNone, auditWriteOk := true }

/-! ## Helper lemmas -/

theorem isJsonSerializable_vStr (s : String) : isJsonSerializable (.vStr s) = true := rfl

theorem coerceValue_idem (v : Value) : coerceValue (coerceValue v) = coerceValue v := by
  unfold coerceValue
  by_cases h : isJsonSerializable v = true
  · simp [h]
  · simp [h, isJsonSerializable_vStr]

theorem estimateQueryCost_bytes (tbp : Option ℕ) :
    (estimateQueryCost tbp).bytes_processed = tbp.getD 0 := rfl

theorem estimateQueryCost_exceeds_iff (tbp : Option ℕ) :
    (estimateQueryCost tbp).exceeds_limit = true ↔ tbp.getD 0 > MAX_BYTES_PROCESSED := by
  simp [estimateQueryCost]

theorem isEmpty_false_of_append_left (s t : String) (h : s.length ≠ 0) :
    (s ++ t).isEmpty = false := by
  rw [Bool.eq_false_iff, ne_eq, String.isEmpty_iff]
  intro he
  have hl := congrArg String.length he
  rw [String.length_append, String.length_empty] at hl
  omega

theorem remoteErrorText_not_empty (re : RemoteError) :
    (remoteErrorText re).isEmpty = false := by
  rcases re with d | d <;>
    exact isEmpty_false_of_append_left _ _ (by decide)

theorem exceedsLimitText_not_empty (bytes : ℕ) :
    (exceedsLimitText bytes).isEmpty = false := by
  unfold exceedsLimitText
  rw [String.append_assoc, String.append_assoc, String.append_assoc]
  exact isEmpty_false_of_append_left _ _ (by decide)

/-! ## Path lemmas: the value of `run` on each control path -/

theorem run_emptyQuery (env : Env) (p : ToolParameters) (hq : queryFalsy p.query = true) :
    run env p = mkResult env [.text "Error: No SQL query provided"] [] 0 0 := by
  simp [run, hq]

theorem run_keyParseError (env : Env) (p : ToolParameters) (e : String)
    (hq : queryFalsy p.query = false) (hk : env.keyParse = .error e) :
    run env p = mkResult env [.text (genericErrorMarker ++ e)]
      [logQuery env.now (p.query.getD "") zeroEstimation false
        (some (genericErrorMarker ++ e))] 0 0 := by
  simp [run, hq, hk]

theorem run_dryRunError (env : Env) (p : ToolParameters) (re : RemoteError)
    (hq : queryFalsy p.query = false) (hk : env.keyParse = .ok ())
    (hc : env.clientSetup = .ok ()) (hd : env.dryRun = .error re) :
    run env p = mkResult env [.text (remoteErrorText re)]
      [logQuery env.now (p.query.getD "") zeroEstimation false
        (some (remoteErrorText re))] 1 0 := by
  simp [run, hq, hk, hc, hd]

theorem run_overLimit (env : Env) (p : ToolParameters) (tbp : Option ℕ)
    (hq : queryFalsy p.query = false) (hk : env.keyParse = .ok ())
    (hc : env.clientSetup = .ok ()) (hd : env.dryRun = .ok tbp)
    (hov : (estimateQueryCost tbp).exceeds_limit = true) :
    run env p = mkResult env [.text (exceedsLimitText (estimateQueryCost tbp).bytes_processed)]
      [logQuery env.now (p.query.getD "") (estimateQueryCost tbp) false
        (some (exceedsLimitText (estimateQueryCost tbp).bytes_processed))] 1 0 := by
  simp [run, hq, hk, hc, hd, hov]

theorem run_execError (env : Env) (p : ToolParameters) (tbp : Option ℕ) (re : RemoteError)
    (hq : queryFalsy p.query = false) (hk : env.keyParse = .ok ())
    (hc : env.clientSetup = .ok ()) (hd : env.dryRun = .ok tbp)
    (hov : (estimateQueryCost tbp).exceeds_limit = false) (he : env.exec = .error re) :
    run env p = mkResult env
      ((if (estimateQueryCost tbp).estimated_cost_warning then
          [Message.text (costWarningText (estimateQueryCost tbp))] else []) ++
        [.text (remoteErrorText re)])
      [logQuery env.now (p.query.getD "") zeroEstimation false
        (some (remoteErrorText re))] 1 1 := by
  simp [run, hq, hk, hc, hd, hov, he]

theorem run_success (env : Env) (p : ToolParameters) (tbp : Option ℕ) (res : ExecResult)
    (hq : queryFalsy p.query = false) (hk : env.keyParse = .ok ())
    (hc : env.clientSetup = .ok ()) (hd : env.dryRun = .ok tbp)
    (hov : (estimateQueryCost tbp).exceeds_limit = false) (he : env.exec = .ok res) :
    run env p = mkResult env
      ((if (estimateQueryCost tbp).estimated_cost_warning then
          [Message.text (costWarningText (estimateQueryCost tbp))] else []) ++
        [.json { results := res.rows.map normalizeRow
                 metadata := { total_rows := res.total_rows
                               schema := res.schema
                               query_job_id := res.job_id
                               bytes_processed := res.total_bytes_processed
                               estimated_cost_usd := (estimateQueryCost tbp).estimated_cost_usd } }])
      [logQuery env.now (p.query.getD "") (estimateQueryCost tbp) true none] 1 1 := by
  simp [run, hq, hk, hc, hd, hov, he]

/-! ## Claim theorems -/

/-- C8: Row normalization is idempotent: applying the serializability
coercion (replace each value that is not JSON-serializable with its text
form) twice yields the same row-mapping as applying it once. -/
theorem normalizeRow_idem (row : Row) : normalizeRow (normalizeRow row) = normalizeRow row := by
  unfold normalizeRow
  rw [List.map_map]
  apply List.map_congr_left
  intro kv _
  simp [Function.comp, coerceValue_idem]

/-- C5: for every invocation whose query parameter is empty or absent,
the output sequence is exactly one text message, no remote calls are
made (neither dry run nor execute) and zero audit records are
written. -/
theorem empty_query_one_text_no_calls_no_audit (env : Env) (p : ToolParameters)
    (hq : queryFalsy p.query = true) :
    (run env p).messages = [.text "Error: No SQL query provided"] ∧
    (run env p).dryRunCalls = 0 ∧ (run env p).execCalls = 0 ∧
    (run env p).audits = [] ∧ (run env p).auditsWritten = [] := by
  rw [run_emptyQuery env p hq]
  simp [mkResult]

/-- C5 witness: the empty-string query on a fully healthy environment. -/
theorem empty_query_one_text_no_calls_no_audit_witness :
    queryFalsy pEmptyQuery.query = true ∧
    (run envDry0ExecBig pEmptyQuery).messages = [.text "Error: No SQL query provided"] ∧
    (run envDry0ExecBig pEmptyQuery).audits = [] :=
  ⟨rfl, (empty_query_one_text_no_calls_no_audit envDry0ExecBig pEmptyQuery rfl).1,
    (empty_query_one_text_no_calls_no_audit envDry0ExecBig pEmptyQuery rfl).2.2.2.1⟩

/-- C1 counterexample: with a non-empty query and a `service_account_key`
that is not valid JSON, `json.loads` raises into the generic `except`
handler, which emits one generic text error message but DOES hand one
audit record to `_log_query` (and persists it) — refuting the claim that
no audit record is written. -/
theorem cred_parse_failure_audit_written_counterexample :
    (run envKeyBad pSelect).messages =
      [.text (genericErrorMarker ++ "Expecting value: line 1 column 1 (char 0)")] ∧
    (run envKeyBad pSelect).audits.length = 1 ∧
    (run envKeyBad pSelect).auditsWritten.length = 1 :=
  ⟨rfl, rfl, rfl⟩

/-- C1 (amended): for every invocation in which the stored secret is not
parseable as JSON, the pipeline terminates after emitting a single text
error message (with the generic execution-error prefix), makes no remote
call, and writes exactly one audit record with success=false and zeroed
byte and cost figures. -/
theorem cred_parse_failure_one_text_one_zero_audit (env : Env) (p : ToolParameters)
    (e : String)
    (hq : queryFalsy p.query = false) (hk : env.keyParse = .error e) :
    (run env p).messages = [.text (genericErrorMarker ++ e)] ∧
    (run env p).dryRunCalls = 0 ∧ (run env p).execCalls = 0 ∧
    (run env p).audits.map (fun r => (r.success, r.bytes_processed, r.estimated_cost_usd)) =
      [(false, 0, 0)] := by
  rw [run_keyParseError env p e hq hk]
  simp [mkResult, logQuery, zeroEstimation]

/-- C1 (amended) witness: the concrete unparseable-key environment. -/
theorem cred_parse_failure_one_text_one_zero_audit_witness :
    queryFalsy pSelect.query = false ∧
    envKeyBad.keyParse = .error "Expecting value: line 1 column 1 (char 0)" ∧
    (run envKeyBad pSelect).audits.map
      (fun r => (r.success, r.bytes_processed, r.estimated_cost_usd)) = [(false, 0, 0)] :=
  ⟨rfl, rfl,
    (cred_parse_failure_one_text_one_zero_audit envKeyBad pSelect
      "Expecting value: line 1 column 1 (char 0)" rfl rfl).2.2.2⟩

/-- C3: for every invocation whose dry run reports strictly more than
`MAX_BYTES_PROCESSED` bytes, execute is never called; exactly one text
message is emitted, containing both the scanned byte count and the fixed
limit; and exactly one audit record is written with success=false and
the (non-zero) dry-run byte count. -/
theorem over_limit_never_executes (env : Env) (p : ToolParameters) (tbp : Option ℕ)
    (hq : queryFalsy p.query = false) (hk : env.keyParse = .ok ())
    (hc : env.clientSetup = .ok ()) (hd : env.dryRun = .ok tbp)
    (hover : tbp.getD 0 > MAX_BYTES_PROCESSED) :
    (run env p).execCalls = 0 ∧
    (run env p).messages = [.text (exceedsLimitText (tbp.getD 0))] ∧
    containsText (exceedsLimitText (tbp.getD 0)) (toString (tbp.getD 0)) ∧
    containsText (exceedsLimitText (tbp.getD 0)) (toString MAX_BYTES_PROCESSED) ∧
    (run env p).audits.map (fun r => (r.success, r.bytes_processed)) = [(false, tbp.getD 0)] ∧
    tbp.getD 0 ≠ 0 := by
  have hov : (estimateQueryCost tbp).exceeds_limit = true :=
    (estimateQueryCost_exceeds_iff tbp).mpr hover
  rw [run_overLimit env p tbp hq hk hc hd hov]
  refine ⟨rfl, rfl, ?_, ?_, ?_, ?_⟩
  · exact ⟨"Query would process ",
      " bytes, which exceeds the maximum limit of " ++ toString MAX_BYTES_PROCESSED ++
        " bytes (5 GB). Please refine your query to process less data.",
      by simp [exceedsLimitText, String.append_assoc]⟩
  · exact ⟨"Query would process " ++ toString (tbp.getD 0) ++
        " bytes, which exceeds the maximum limit of ",
      " bytes (5 GB). Please refine your query to process less data.",
      by simp [exceedsLimitText, String.append_assoc]⟩
  · simp [mkResult, logQuery, estimateQueryCost_bytes]
  · intro h0
    rw [h0] at hover
    exact Nat.not_lt_zero MAX_BYTES_PROCESSED hover

/-- C3 witness: a 6 GiB dry run against the 5 GiB ceiling. -/
theorem over_limit_never_executes_witness :
    (some 6442450944 : Option ℕ).getD 0 > MAX_BYTES_PROCESSED ∧
    (run envOverLimit pSelect).execCalls = 0 ∧
    (run envOverLimit pSelect).messages =
      [.text (exceedsLimitText ((some 6442450944 : Option ℕ).getD 0))] :=
  ⟨by decide,
    (over_limit_never_executes envOverLimit pSelect (some 6442450944)
      rfl rfl rfl rfl (by decide)).1,
    (over_limit_never_executes envOverLimit pSelect (some 6442450944)
      rfl rfl rfl rfl (by decide)).2.1⟩

/-- C4 (code bug): the guard of the advisory cost-warning branch is
unsatisfiable.  Because `BYTES_PER_DOLLAR = MAX_BYTES_PROCESSED`, the
dry-run estimate satisfies `estimated_cost > 1.0` exactly when
`bytes_processed > MAX_BYTES_PROCESSED`: the two stored booleans are
always equal, so every invocation with a cost warning is terminated by
the hard limit first and the warn-then-execute path is dead code. -/
theorem cost_warning_iff_exceeds_limit (tbp : Option ℕ) :
    (estimateQueryCost tbp).estimated_cost_warning = (estimateQueryCost tbp).exceeds_limit := by
  simp only [estimateQueryCost, COST_THRESHOLD_WARNING, MAX_BYTES_PROCESSED, BYTES_PER_DOLLAR]
  by_cases h : tbp.getD 0 = 0
  · simp [h]
  · rw [if_neg h, decide_eq_decide, gt_iff_lt, gt_iff_lt, one_lt_div (by positivity)]
    exact_mod_cast Iff.rfl

/-- C2 counterexample: with a 0-byte dry run and an execute job reporting
5 GiB, the final metadata has `bytes_processed = 5 GiB` while
`estimated_cost_usd = 0`, which is not `bytes_processed / BYTES_PER_DOLLAR`
(that quotient is 1): the response cost is not derived from the execute
job's byte count. -/
theorem metadata_cost_not_from_exec_bytes_counterexample :
    (finalMetadata (run envDry0ExecBig pSelect)).map Metadata.bytes_processed =
      some (some BYTES_PER_DOLLAR) ∧
    (finalMetadata (run envDry0ExecBig pSelect)).map Metadata.estimated_cost_usd = some 0 ∧
    (BYTES_PER_DOLLAR : ℚ) / (BYTES_PER_DOLLAR : ℚ) ≠ 0 :=
  ⟨rfl, rfl, by norm_num [BYTES_PER_DOLLAR]⟩

/-- C2 (amended): for every successful execution, the final metadata's
`bytes_processed` equals the execute job's (uncoerced) byte count, while
`estimated_cost_usd` — like the audit record's byte count and cost — is
derived from the dry-run estimate, which need not equal the execute
job's count. -/
theorem success_metadata_and_audit_sources (env : Env) (p : ToolParameters)
    (tbp : Option ℕ) (res : ExecResult)
    (hq : queryFalsy p.query = false) (hk : env.keyParse = .ok ())
    (hc : env.clientSetup = .ok ()) (hd : env.dryRun = .ok tbp)
    (hov : (estimateQueryCost tbp).exceeds_limit = false) (he : env.exec = .ok res) :
    (finalMetadata (run env p)).map Metadata.bytes_processed =
      some res.total_bytes_processed ∧
    (finalMetadata (run env p)).map Metadata.estimated_cost_usd =
      some (estimateQueryCost tbp).estimated_cost_usd ∧
    (run env p).audits.map (fun r => (r.bytes_processed, r.estimated_cost_usd)) =
      [((estimateQueryCost tbp).bytes_processed, (estimateQueryCost tbp).estimated_cost_usd)] := by
  rw [run_success env p tbp res hq hk hc hd hov he]
  refine ⟨?_, ?_, ?_⟩
  · simp [finalMetadata, mkResult, List.getLast?_concat]
  · simp [finalMetadata, mkResult, List.getLast?_concat]
  · simp [mkResult, logQuery]

/-- C2 (amended) witness: dry run 0 bytes, execute job 5 GiB. -/
theorem success_metadata_and_audit_sources_witness :
    envDry0ExecBig.exec = .ok execResBig ∧
    (finalMetadata (run envDry0ExecBig pSelect)).map Metadata.bytes_processed =
      some execResBig.total_bytes_processed :=
  ⟨rfl, (success_metadata_and_audit_sources envDry0ExecBig pSelect (some 0) execResBig
    rfl rfl rfl rfl (by decide) rfl).1⟩

/-- C6: when the remote service raises a syntax-class error
(`BadRequest`, at the dry run or at execute), the final emitted text is
the syntax-error marker followed by the service detail; that marker
differs from the generic execution-error marker; and exactly one audit
record is written, with success=false and that error text. -/
theorem bad_request_distinct_marker_one_audit (env : Env) (p : ToolParameters)
    (tbp : Option ℕ) (d : String)
    (hq : queryFalsy p.query = false) (hk : env.keyParse = .ok ())
    (hc : env.clientSetup = .ok ())
    (hcase : env.dryRun = .error (.badRequest d) ∨
      (env.dryRun = .ok tbp ∧ (estimateQueryCost tbp).exceeds_limit = false ∧
        env.exec = .error (.badRequest d))) :
    (run env p).messages.getLast? = some (.text (badRequestMsgMarker ++ d)) ∧
    badRequestMsgMarker ≠ genericErrorMarker ∧
    (run env p).audits.map (fun r => (r.success, r.error)) =
      [(false, some (badRequestMsgMarker ++ d))] := by
  have hmark : badRequestMsgMarker ≠ genericErrorMarker := by decide
  have hne : (badRequestMsgMarker ++ d).isEmpty = false :=
    isEmpty_false_of_append_left _ _ (by decide)
  rcases hcase with hd | ⟨hd, hov, he⟩
  · rw [run_dryRunError env p (.badRequest d) hq hk hc hd]
    refine ⟨rfl, hmark, ?_⟩
    simp [mkResult, logQuery, remoteErrorText, hne]
  · rw [run_execError env p tbp (.badRequest d) hq hk hc hd hov he]
    refine ⟨?_, hmark, ?_⟩
    · simp [mkResult, remoteErrorText, List.getLast?_concat]
    · simp [mkResult, logQuery, remoteErrorText, hne]

/-- C6 witness: execute raises `BadRequest` after a clean 1000-byte dry
run. -/
theorem bad_request_distinct_marker_one_audit_witness :
    envBadRequest.exec =
      .error (.badRequest "Syntax error: Unexpected keyword FORM at [1:10]") ∧
    (run envBadRequest pSelect).messages.getLast? =
      some (.text (badRequestMsgMarker ++ "Syntax error: Unexpected keyword FORM at [1:10]")) :=
  ⟨rfl, (bad_request_distinct_marker_one_audit envBadRequest pSelect (some 1000)
    "Syntax error: Unexpected keyword FORM at [1:10]" rfl rfl rfl
    (Or.inr ⟨rfl, by decide, rfl⟩)).1⟩

/-- C7: a failure of the audit append never propagates and never changes
the user-visible result: the messages (and the records handed to the
sink) are identical whether the append succeeds or fails. -/
theorem audit_write_failure_invisible (env : Env) (p : ToolParameters) (b₁ b₂ : Bool) :
    (run { env with auditWriteOk := b₁ } p).messages =
      (run { env with auditWriteOk := b₂ } p).messages ∧
    (run { env with auditWriteOk := b₁ } p).audits =
      (run { env with auditWriteOk := b₂ } p).audits := by
  rcases env with ⟨now, kp, cs, dr, ex, aw⟩
  cases hq : queryFalsy p.query
  · rcases kp with e | u
    · simp [run, hq, mkResult]
    · rcases cs with e | u2
      · simp [run, hq, mkResult]
      · rcases dr with re | tbp
        · simp [run, hq, mkResult]
        · cases hov : (estimateQueryCost tbp).exceeds_limit
          · rcases ex with re | res
            · simp [run, hq, hov, mkResult]
            · simp [run, hq, hov, mkResult]
          · simp [run, hq, hov, mkResult]
  · simp [run, hq, mkResult]

/-- C9: when execute fails after a successful dry run (syntax-class or
generic), the audit record written by the handler carries
bytes_processed = 0 and estimated_cost_usd = 0, discarding the dry-run
estimate. -/
theorem exec_failure_audit_zeroed (env : Env) (p : ToolParameters) (tbp : Option ℕ)
    (re : RemoteError)
    (hq : queryFalsy p.query = false) (hk : env.keyParse = .ok ())
    (hc : env.clientSetup = .ok ()) (hd : env.dryRun = .ok tbp)
    (hov : (estimateQueryCost tbp).exceeds_limit = false) (he : env.exec = .error re) :
    (run env p).audits.map (fun r => (r.success, r.bytes_processed, r.estimated_cost_usd)) =
      [(false, 0, 0)] := by
  rw [run_execError env p tbp re hq hk hc hd hov he]
  simp [mkResult, logQuery, zeroEstimation]

/-- C9 witness: a 2 GiB dry-run estimate is discarded when execute
fails. -/
theorem exec_failure_audit_zeroed_witness :
    (estimateQueryCost (some 2147483648)).bytes_processed = 2147483648 ∧
    (run envExecFail pSelect).audits.map
      (fun r => (r.success, r.bytes_processed, r.estimated_cost_usd)) = [(false, 0, 0)] :=
  ⟨rfl, exec_failure_audit_zeroed envExecFail pSelect (some 2147483648)
    (.execError "quota exceeded") rfl rfl rfl rfl (by decide) rfl⟩

/-- C10: the dry-run estimate coerces a missing (`None`) byte count to 0,
so the policy gate and cost computation always receive an integer, while
the success metadata's `bytes_processed` is the execute job's value
without that coercion, and so can be `None`. -/
theorem dry_null_coerced_metadata_bytes_uncoerced (env : Env) (p : ToolParameters)
    (res : ExecResult)
    (hq : queryFalsy p.query = false) (hk : env.keyParse = .ok ())
    (hc : env.clientSetup = .ok ()) (hd : env.dryRun = .ok none)
    (he : env.exec = .ok res) (hnone : res.total_bytes_processed = none) :
    (estimateQueryCost none).bytes_processed = 0 ∧
    (estimateQueryCost none).estimated_cost_usd = 0 ∧
    (finalMetadata (run env p)).map Metadata.bytes_processed = some none := by
  have hov : (estimateQueryCost none).exceeds_limit = false := by decide
  rw [run_success env p none res hq hk hc hd hov he]
  refine ⟨rfl, rfl, ?_⟩
  simp [finalMetadata, mkResult, List.getLast?_concat, hnone]

/-- C10 witness: both jobs report `None`. -/
theorem dry_null_coerced_metadata_bytes_uncoerced_witness :
    execResNone.total_bytes_processed = none ∧
    (finalMetadata (run envDryNone pSelect)).map Metadata.bytes_processed = some none :=
  ⟨rfl, (dry_null_coerced_metadata_bytes_uncoerced envDryNone pSelect execResNone
    rfl rfl rfl rfl rfl rfl).2.2⟩
